import Mathlib

/-!
Shallow embedding of `ruedigerc_v7.py` (X-Touch Extender ↔ Behringer Wing ↔ DMX
bridge).  Pure numeric conversions are embedded over exact numbers (ℤ, ℚ, and ℝ
for the dB curve), stateful code as explicit state passing over the per-strip
channel table, and I/O as an effect trace.  Python `int()` truncation towards
zero is `pytrunc`.
-/

namespace XTouchWing

/-! ## Constants (module-level constants of the source) -/

def FADER_MIN : ℤ := 0
def FADER_MAX : ℤ := 1000
def FADER_SILENT_THRESHOLD : ℤ := 5
def FADER_DEADBAND : ℤ := 15
def GAIN_MIN : ℚ := -5/2
def GAIN_MAX : ℚ := 45
def GAIN_STEP : ℚ := 1
def MAX_SYNC_RETRIES : ℕ := 3

/-- Python `int(x)`: truncation of a rational towards zero. -/
def pytrunc (q : ℚ) : ℤ := if q < 0 then -(⌊-q⌋) else ⌊q⌋

/-! ## Curve codec (`WingControl.setFader` / `WingControl.getFader`)

The fader-law coefficients `self.a, self.b, self.c = -6e-05, 0.1359, -62.895`.
The dB domain is embedded as ℝ (the source computes with floats; the claims are
about the quadratic law itself, which we model exactly). -/

noncomputable def wingA : ℝ := -(6/100000)
noncomputable def wingB : ℝ := 1359/10000
noncomputable def wingC : ℝ := -(62895/1000)

/-- Conversion performed by `WingControl.setFader`: clamp the position to
`[FADER_MIN, FADER_MAX]`, then either the silence floor `-144.0` (for positions
`≤ FADER_SILENT_THRESHOLD`) or the quadratic law `a·p² + b·p + c`. -/
noncomputable def setFader_db (fader_1000 : ℤ) : ℝ :=
  if max FADER_MIN (min FADER_MAX fader_1000) ≤ FADER_SILENT_THRESHOLD then -144
  else
    wingA * ((max FADER_MIN (min FADER_MAX fader_1000) : ℤ) : ℝ) ^ 2 +
      wingB * ((max FADER_MIN (min FADER_MAX fader_1000) : ℤ) : ℝ) + wingC

/-- Numeric branch of `WingControl.getFader`: values `≤ -90` dB map to 0, a
negative discriminant maps to 0, otherwise the quadratic-formula inverse,
clamped to `[FADER_MIN, FADER_MAX]` and truncated by Python `int()` (the
clamped value is nonnegative, so truncation is the floor). -/
noncomputable def getFader_pos (y : ℝ) : ℤ :=
  if y ≤ -90 then 0
  else if wingB ^ 2 - 4 * wingA * (wingC - y) < 0 then 0
  else
    ⌊max ((FADER_MIN : ℤ) : ℝ) (min ((FADER_MAX : ℤ) : ℝ)
      ((-wingB + Real.sqrt (wingB ^ 2 - 4 * wingA * (wingC - y))) / (2 * wingA)))⌋

/-- OSC query reply value: a numeric value or a string (e.g. `"-oo"`). -/
inductive OscValue
  | num (q : ℚ)
  | str (s : String)

/-- `WingControl.getFader` on the raw query result: `None` (timeout) stays
absent, the string `"-oo"` maps to 0, any other non-numeric string raises
`ValueError` inside the `try` and yields `None`, a numeric reply goes through
the quadratic inverse. -/
noncomputable def getFaderRes : Option OscValue → Option ℤ
  | none => none
  | some (.str s) => if s = "-oo" then some 0 else none
  | some (.num q) => some (getFader_pos (q : ℝ))

/-! ## Channel state table (`ChannelState`, `XTouchExtender.channels`) -/

/-- One per-strip state record (dataclass `ChannelState`). -/
structure Strip where
  fader_value : ℤ
  last_stable_value : ℤ
  is_muted : Bool
  is_touched : Bool
  gain_db : ℚ
deriving DecidableEq

/-- The all-defaults strip (`ChannelState()` field defaults). -/
def strip0 : Strip :=
  { fader_value := 0, last_stable_value := 0, is_muted := false,
    is_touched := false, gain_db := 0 }

/-- The strip table `self.channels` (keyed by local strip number 1..8;
modelled as a total map). -/
abbrev Channels := ℕ → Strip

/-- Initial channel table `{i: ChannelState() for i in range(1, 9)}`. -/
def initChannels : Channels := fun _ => strip0

/-- Point update of one strip's record. -/
def updateCh (st : Channels) (ch : ℕ) (f : Strip → Strip) : Channels :=
  fun n => if n = ch then f (st n) else st n

/-- Outbound calls made while the embedded code runs (effect trace). -/
inductive Eff
  | setFader (ch : ℕ) (val : ℤ)
  | setLed (ch : ℕ) (state : Bool)
  | dmxSend (channel : ℕ) (value_1000 : ℤ)
  | dmxConnect
deriving DecidableEq

/-! ## Reconciliation loop (`sync_loop`), fader/mute section -/

/-- One strip's block of a `sync_loop` tick: if the strip is not touched and
the console replied, compare the remote value with `fader_value`, push it to
the surface only beyond the deadband, and update `fader_value` and
`last_stable_value` unconditionally; then mirror the mute state to the LED. -/
def syncStrip (ch : ℕ) (remote : Option ℤ) (muted : Bool) (st : Channels) :
    Channels × List Eff :=
  if (st ch).is_touched then (st, [Eff.setLed ch muted])
  else
    match remote with
    | none => (st, [Eff.setLed ch muted])
    | some wf =>
        ((updateCh st ch fun c => { c with fader_value := wf, last_stable_value := wf }),
          (if FADER_DEADBAND < |wf - (st ch).fader_value| then [Eff.setFader ch wf] else [])
            ++ [Eff.setLed ch muted])

/-- Console targets of a page section: (local strip, target type, number). -/
abbrev Target := ℕ × String × ℕ

/-- Page 0 targets: inputs 1-4 on strips 1-4, matrices 1-3 on strips 5-7. -/
def page0Targets : List Target :=
  [(1, "ch", 1), (2, "ch", 2), (3, "ch", 3), (4, "ch", 4),
   (5, "mtx", 1), (6, "mtx", 2), (7, "mtx", 3)]

/-- Pages 1 and 2: strips 1-8 onto console channels `1+off .. 8+off`. -/
def pageTargets (off : ℕ) : List Target :=
  (List.range 8).map fun i => (i + 1, "ch", i + 1 + off)

/-- Run the per-strip sync blocks over a target list, threading the channel
table and concatenating the effect trace in program order. -/
def runStrips (getF : String → ℕ → Option ℤ) (getM : String → ℕ → Bool) :
    List Target → Channels → Channels × List Eff
  | [], st => (st, [])
  | t :: ts, st =>
      ((runStrips getF getM ts (syncStrip t.1 (getF t.2.1 t.2.2) (getM t.2.1 t.2.2) st).1).1,
        (syncStrip t.1 (getF t.2.1 t.2.2) (getM t.2.1 t.2.2) st).2 ++
          (runStrips getF getM ts (syncStrip t.1 (getF t.2.1 t.2.2) (getM t.2.1 t.2.2) st).1).2)

/-- Fader/mute section of one `sync_loop` tick for the snapshotted page.
`getF t n` is the (already converted) result of `wing.getFader(t, n)`,
`getM t n` of `wing.getMute(t, n)`, and `licht` of `dmx.getSaallicht()`.
On page 0 the lighting strip 8 is written with `set_fader(8, licht)`
unconditionally (no touch check, no deadband); pages other than 0-2 have no
fader section. -/
def tickFaders (page : ℕ) (getF : String → ℕ → Option ℤ) (getM : String → ℕ → Bool)
    (licht : ℤ) (st : Channels) : Channels × List Eff :=
  if page = 0 then
    ((runStrips getF getM page0Targets st).1,
      (runStrips getF getM page0Targets st).2 ++ [Eff.setFader 8 licht])
  else if page = 1 then runStrips getF getM (pageTargets 8) st
  else if page = 2 then runStrips getF getM (pageTargets 16) st
  else (st, [])

/-! ## Surface input decoding and event dispatch -/

/-- Pitch-bend decoding in `XTouchExtender._input_callback`:
`val = int((msg.pitch + 8192) / 16383.0 * FADER_MAX)`. -/
def pitchToVal (pitch : ℤ) : ℤ :=
  pytrunc (((pitch + 8192 : ℤ) : ℚ) / 16383 * (FADER_MAX : ℚ))

/-- State part of the `on_fader` handler: the move is dropped inside the
deadband around `last_stable_value`; otherwise `last_stable_value` is set to
the new value (the write-through to console/DMX touches no strip state). -/
def onFaderState (ch : ℕ) (val : ℤ) (st : Channels) : Channels :=
  if |val - (st ch).last_stable_value| < FADER_DEADBAND then st
  else updateCh st ch fun c => { c with last_stable_value := val }

/-- State part of the `select`-button handler: every strip's `fader_value`
and `last_stable_value` are reset to 0. -/
def pageResetState (st : Channels) : Channels :=
  fun n =>
    if 1 ≤ n ∧ n ≤ 8 then
      { st n with fader_value := 0, last_stable_value := 0 }
    else st n

/-- One strip of `update_page_faders`: when the console replied, the surface
fader is set and both `fader_value` and `last_stable_value` take the remote
value (no touch check on refresh). State part only. -/
def refreshStrip (ch : ℕ) (remote : Option ℤ) (st : Channels) : Channels :=
  match remote with
  | none => st
  | some v => updateCh st ch fun c => { c with fader_value := v, last_stable_value := v }

/-- Refresh a target list in order (state part of `update_page_faders`). -/
def refreshList (getF : String → ℕ → Option ℤ) :
    List Target → Channels → Channels
  | [], st => st
  | t :: ts, st => refreshList getF ts (refreshStrip t.1 (getF t.2.1 t.2.2) st)

/-- State part of `update_page_faders` for a page: pages 0-2 refresh their
console targets; page 3 writes surface faders from the DMX shadow but touches
no strip state. -/
def refreshFadersState (page : ℕ) (getF : String → ℕ → Option ℤ) (st : Channels) :
    Channels :=
  if page = 0 then refreshList getF page0Targets st
  else if page = 1 then refreshList getF (pageTargets 8) st
  else if page = 2 then refreshList getF (pageTargets 16) st
  else st

/-- The operations of the program that write `fader_value` /
`last_stable_value`: a reconciliation tick, a fader-move event (with the raw
pitch-bend value), the select-button reset, and a page refresh. -/
inductive TableOp
  | tick (page : ℕ) (getF : String → ℕ → Option ℤ) (getM : String → ℕ → Bool) (licht : ℤ)
  | faderMove (ch : ℕ) (pitch : ℤ)
  | pageReset
  | refresh (page : ℕ) (getF : String → ℕ → Option ℤ)

/-- Apply one operation to the channel table. -/
def applyOp : TableOp → Channels → Channels
  | .tick p f m l, st => (tickFaders p f m l st).1
  | .faderMove ch pitch, st => onFaderState ch (pitchToVal pitch) st
  | .pageReset, st => pageResetState st
  | .refresh p f, st => refreshFadersState p f st

/-- Well-formed inputs: console reads are clamped to `[0, 1000]` (this holds
for `getFader`, proved below), and MIDI pitch-bend is 14-bit signed. -/
def opWF : TableOp → Prop
  | .tick _ f _ _ => ∀ t n v, f t n = some v → 0 ≤ v ∧ v ≤ 1000
  | .faderMove _ pitch => -8192 ≤ pitch ∧ pitch ≤ 8191
  | .pageReset => True
  | .refresh _ f => ∀ t n v, f t n = some v → 0 ≤ v ∧ v ≤ 1000

/-- Range invariant of the spec: `0 ≤ faderValue, lastStableValue ≤ 1000`. -/
def StripRange (s : Strip) : Prop :=
  0 ≤ s.fader_value ∧ s.fader_value ≤ 1000 ∧
    0 ≤ s.last_stable_value ∧ s.last_stable_value ≤ 1000

/-- The invariant for the whole table. -/
def TableRange (st : Channels) : Prop := ∀ n, StripRange (st n)

/-! ## Encoder events and the LED ring (`on_encoder`, gain sync) -/

/-- Gain update of `on_encoder`: one `GAIN_STEP` up for positive delta,
otherwise one `GAIN_STEP` down, clamped to `[GAIN_MIN, GAIN_MAX]`. -/
def encoderNewGain (current_gain : ℚ) (delta : ℤ) : ℚ :=
  max GAIN_MIN (min GAIN_MAX
    (if 0 < delta then current_gain + GAIN_STEP else current_gain - GAIN_STEP))

/-- Ring position computed throughout the source:
`ring_value = int((gain / GAIN_MAX) * 11)` (Python `int()` truncation). -/
def ringValue (gain : ℚ) : ℤ := pytrunc (gain / GAIN_MAX * 11)

/-- Modelled from the spec claim's words for comparison: the claimed formula
`round(gainDb / gainMax * 11)` for the ring index. -/
def specRingIndex (gain : ℚ) : ℤ := round (gain / GAIN_MAX * 11)

/-- Modelled from the spec claim's words for comparison: the claimed encoder
update `clamp(gain + delta * step)`. -/
def claimedGain (g : ℚ) (d : ℤ) : ℚ :=
  max GAIN_MIN (min GAIN_MAX (g + (d : ℚ) * GAIN_STEP))

/-- The Wing channel addressed by an encoder event (`on_encoder`): pages 0
(strips 1-4 only), 1 and 2 have input channels; otherwise the event is
dropped. -/
def wingChForEncoder (page ch : ℕ) : Option ℕ :=
  if page = 0 ∧ ch ≤ 4 then some ch
  else if page = 1 then some (ch + 8)
  else if page = 2 then some (ch + 16)
  else none

/-- Whole `on_encoder` handler: resolves the Wing channel and input source
(dropped if either is missing), computes the clamped gain, and on a successful
`setGain` stores the gain and returns the ring value written; a failed send
leaves the stored gain and ring untouched.  Result: (new `gain_db`, ring value
written, if any). -/
def on_encoder (page ch : ℕ) (delta : ℤ) (source : Option (String × ℕ))
    (sendOk : Bool) (g : ℚ) : ℚ × Option ℤ :=
  match wingChForEncoder page ch with
  | none => (g, none)
  | some _ =>
      match source with
      | none => (g, none)
      | some _ =>
          if sendOk then
            (encoderNewGain g delta, some (ringValue (encoderNewGain g delta)))
          else (g, none)

/-! ## Mute reads (`WingControl.getMute`) and the mute button -/

/-- A mute query outcome: timeout (`None`), a reply parseable as a float, or a
reply that `float()` rejects (handled by the string fallback). -/
inductive MuteReply
  | timeout
  | numeric (q : ℚ)
  | text (s : String)

/-- The string encodings accepted as muted by `getMute`. -/
def muteTruthy : List String := ["ON", "MUTE", "TRUE", "1"]

/-- Python `str.upper()`, modelled as per-character uppercasing. -/
def pyUpper (s : String) : String := ⟨s.data.map Char.toUpper⟩

/-- `WingControl.getMute`: `None` yields `False`; a numeric reply is muted iff
`int(float(val)) > 0`; a non-numeric reply is muted iff its uppercase form is
one of the truthy strings. -/
def getMute : MuteReply → Bool
  | .timeout => false
  | .numeric q => decide (0 < pytrunc q)
  | .text s => muteTruthy.contains (pyUpper s)

/-- Mute branch of `on_button`: read-modify-write; the value sent to
`setMute` and shown on the LED is the negation of the read state. -/
def muteButtonStep (reply : MuteReply) : Bool := !(getMute reply)

/-! ## DMX shadow (`DMXController.getDMX`) -/

/-- Length of `dmx_stored_values = [0] * 513`. -/
def SHADOW_LEN : ℤ := 513

/-- `DMXController.getDMX` with Python list-indexing semantics: indices
`0..512` read directly, `-513..-1` wrap to `channel + 513`, anything else
raises `IndexError` (modelled as `Except.error`); a shadow value outside
`[0, 1000]` is defensively replaced by 0. -/
def getDMX (shadow : ℤ → ℤ) (channel : ℤ) : Except Unit ℤ :=
  if 0 ≤ channel ∧ channel < SHADOW_LEN then
    if 0 ≤ shadow channel ∧ shadow channel ≤ 1000 then .ok (shadow channel) else .ok 0
  else if -SHADOW_LEN ≤ channel ∧ channel < 0 then
    if 0 ≤ shadow (channel + SHADOW_LEN) ∧ shadow (channel + SHADOW_LEN) ≤ 1000 then
      .ok (shadow (channel + SHADOW_LEN))
    else .ok 0
  else .error ()

/-! ## Supervisor loop, 60-second console check (`main`) -/

/-- All-channel blackout `for i in range(1, 513): dmx.sendDMX(i, 0)`. -/
def dmxBlackout : List Eff := (List.range' 1 512).map fun i => Eff.dmxSend i 0

/-- One 60-second console-check cycle of the main loop: on connectivity loss
the blackout runs; `dmx.connect()` is then attempted unconditionally, whether
or not the console check succeeded. -/
def connectionCheckCycle (wingOk : Bool) : List Eff :=
  (if wingOk then [] else dmxBlackout) ++ [Eff.dmxConnect]

/-! ## Sync-loop error escalation (`sync_loop` exception handler) -/

/-- Outcome of one tick body: normal completion, or an exception reaching the
`except` handler.  A console query timeout is NOT an exception: `_query`
catches `socket.timeout` and returns `None`. -/
inductive TickResult
  | ok
  | exn
deriving DecidableEq

/-- The error bookkeeping of one `while True` iteration: completion resets
`consecutive_errors`; an exception increments it, and on reaching
`MAX_SYNC_RETRIES` a connectivity check is forced and the counter reset.
Result: (new counter, whether `wing.check_connection()` was called). -/
def syncIterate (errs : ℕ) (r : TickResult) : ℕ × Bool :=
  match r with
  | .ok => (0, false)
  | .exn =>
      if MAX_SYNC_RETRIES ≤ errs + 1 then (0, true) else (errs + 1, false)

/-- Run the loop bookkeeping over a sequence of tick outcomes, counting the
connectivity checks. Result: (final counter, number of checks). -/
def runSync : ℕ → List TickResult → ℕ × ℕ
  | errs, [] => (errs, 0)
  | errs, r :: rs =>
      ((runSync (syncIterate errs r).1 rs).1,
        (if (syncIterate errs r).2 then 1 else 0) + (runSync (syncIterate errs r).1 rs).2)

/-! ## Concrete tables used in counterexamples and witnesses -/

/-- A table whose strip 8 is currently touched. -/
def touchedSt8 : Channels := fun n => if n = 8 then { strip0 with is_touched := true } else strip0

/-- A table with every strip at `fader_value = last_stable_value = 500`. -/
def st500 : Channels := fun _ => { strip0 with fader_value := 500, last_stable_value := 500 }

/-! ## Helper lemmas -/

theorem syncStrip_preserves_touch (c : ℕ) (r : Option ℤ) (m : Bool) (st : Channels)
    (n : ℕ) : ((syncStrip c r m st).1 n).is_touched = (st n).is_touched := by
  unfold syncStrip
  split_ifs with h
  · rfl
  · cases r with
    | none => rfl
    | some wf =>
        simp only [updateCh]
        split_ifs with hn <;> rfl

theorem syncStrip_setFader_mem (c ch : ℕ) (r : Option ℤ) (m : Bool) (st : Channels)
    (v : ℤ) (h : Eff.setFader ch v ∈ (syncStrip c r m st).2) :
    ch = c ∧ (st c).is_touched = false := by
  unfold syncStrip at h
  split_ifs at h with ht
  · simp at h
  · cases r with
    | none => simp at h
    | some wf =>
        refine ⟨?_, by simp [Bool.not_eq_true] at ht; exact ht⟩
        simp only [List.mem_append] at h
        rcases h with h | h
        · split_ifs at h <;> simp_all
        · simp at h

theorem runStrips_preserves_touch (f : String → ℕ → Option ℤ) (m : String → ℕ → Bool)
    (ts : List Target) : ∀ (st : Channels) (n : ℕ),
    ((runStrips f m ts st).1 n).is_touched = (st n).is_touched := by
  induction ts with
  | nil => intro st n; rfl
  | cons t ts ih =>
      intro st n
      show ((runStrips f m ts _).1 n).is_touched = _
      rw [ih, syncStrip_preserves_touch]

theorem runStrips_setFader_not_mem (f : String → ℕ → Option ℤ) (m : String → ℕ → Bool)
    (ts : List Target) (ch : ℕ) (v : ℤ) : ∀ (st : Channels),
    (st ch).is_touched = true → Eff.setFader ch v ∉ (runStrips f m ts st).2 := by
  induction ts with
  | nil => intro st _ hmem; simp [runStrips] at hmem
  | cons t ts ih =>
      intro st h hmem
      rw [runStrips, List.mem_append] at hmem
      rcases hmem with hmem | hmem
      · rcases syncStrip_setFader_mem _ _ _ _ _ _ hmem with ⟨rfl, hf⟩
        rw [h] at hf
        exact Bool.noConfusion hf
      · exact ih _ (by rw [syncStrip_preserves_touch]; exact h) hmem

/-! ## Claim C1: touch arbitration -/

/-- Claim C1 (amended): while `isTouched` is true for a strip, a
reconciliation tick never issues a `set_fader` against that strip — for
every strip on every page EXCEPT strip 8 on page 0, whose lighting-average
fader write is unconditional. -/
theorem C1_touch_arbitration (page ch : ℕ) (getF : String → ℕ → Option ℤ)
    (getM : String → ℕ → Bool) (licht : ℤ) (st : Channels) (v : ℤ)
    (htouch : (st ch).is_touched = true) (hexc : ¬(page = 0 ∧ ch = 8)) :
    Eff.setFader ch v ∉ (tickFaders page getF getM licht st).2 := by
  unfold tickFaders
  split_ifs with h0 h1 h2
  · intro hmem
    rw [List.mem_append] at hmem
    rcases hmem with hmem | hmem
    · exact runStrips_setFader_not_mem _ _ _ _ _ _ htouch hmem
    · simp only [List.mem_singleton, Eff.setFader.injEq] at hmem
      exact hexc ⟨h0, hmem.1⟩
  · exact runStrips_setFader_not_mem _ _ _ _ _ _ htouch
  · exact runStrips_setFader_not_mem _ _ _ _ _ _ htouch
  · simp

/-- Claim C1, witness: with strip 8 touched, a tick on page 1 issues no
fader-set against strip 8 even though the console reports a drifted value. -/
theorem C1_touch_arbitration_witness :
    (touchedSt8 8).is_touched = true ∧ ¬((1 : ℕ) = 0 ∧ (8 : ℕ) = 8) ∧
      Eff.setFader 8 700 ∉
        (tickFaders 1 (fun _ _ => some 700) (fun _ _ => false) 0 touchedSt8).2 :=
  ⟨by decide, by decide,
    C1_touch_arbitration 1 8 (fun _ _ => some 700) (fun _ _ => false) 0 touchedSt8 700
      (by decide) (by decide)⟩

/-- Claim C1, counterexample: on page 0 with strip 8 touched, the tick still
invokes `set_fader` on strip 8 (with the lighting average, here 700), so the
claim as stated — covering strip 8 on page 0 — is false. -/
theorem C1_touch_arbitration_cex :
    (touchedSt8 8).is_touched = true ∧
      Eff.setFader 8 700 ∈
        (tickFaders 0 (fun _ _ => none) (fun _ _ => false) 700 touchedSt8).2 := by
  decide

/-! ## Claim C2: reconciliation deadband -/

/-- Claim C2 (amended): on a tick, an untouched strip with a console reply is
compared against its `fader_value` (not `lastStableValue`); beyond the
deadband the remote value is pushed to the surface, within the deadband it is
not — but in BOTH cases `fader_value` and `last_stable_value` are set to the
remote value (a suppressed write still changes state). -/
theorem C2_deadband (ch : ℕ) (r : ℤ) (m : Bool) (st : Channels)
    (hunt : (st ch).is_touched = false) :
    (((syncStrip ch (some r) m st).1 ch).fader_value = r ∧
      ((syncStrip ch (some r) m st).1 ch).last_stable_value = r) ∧
    (FADER_DEADBAND < |r - (st ch).fader_value| →
      (syncStrip ch (some r) m st).2 = [Eff.setFader ch r, Eff.setLed ch m]) ∧
    (|r - (st ch).fader_value| ≤ FADER_DEADBAND →
      (syncStrip ch (some r) m st).2 = [Eff.setLed ch m]) := by
  unfold syncStrip
  rw [if_neg (by simp [hunt])]
  refine ⟨⟨?_, ?_⟩, ?_, ?_⟩
  · simp [updateCh]
  · simp [updateCh]
  · intro h
    show (if FADER_DEADBAND < |r - (st ch).fader_value| then [Eff.setFader ch r] else [])
        ++ [Eff.setLed ch m] = _
    rw [if_pos h]
    rfl
  · intro h
    show (if FADER_DEADBAND < |r - (st ch).fader_value| then [Eff.setFader ch r] else [])
        ++ [Eff.setLed ch m] = _
    rw [if_neg (not_lt.2 h)]
    rfl

/-- Claim C2, witness: with `fader_value = 500` and remote 516 (difference 16,
beyond the deadband of 15), the push to the surface occurs and both fields
take the value 516. -/
theorem C2_deadband_witness :
    (st500 1).is_touched = false ∧
      FADER_DEADBAND < |(516 : ℤ) - (st500 1).fader_value| ∧
      (syncStrip 1 (some 516) false st500).2 = [Eff.setFader 1 516, Eff.setLed 1 false] ∧
      ((syncStrip 1 (some 516) false st500).1 1).fader_value = 516 ∧
      ((syncStrip 1 (some 516) false st500).1 1).last_stable_value = 516 :=
  ⟨by decide, by decide,
    (C2_deadband 1 516 false st500 (by decide)).2.1 (by decide),
    (C2_deadband 1 516 false st500 (by decide)).1.1,
    (C2_deadband 1 516 false st500 (by decide)).1.2⟩

/-- Claim C2, counterexample: with `lastStableValue = fader_value = 500` and
remote 510 the surface write is indeed suppressed, but — contrary to the
claim's "no state change" — `last_stable_value` is changed from 500 to 510. -/
theorem C2_deadband_cex :
    (st500 1).is_touched = false ∧ (st500 1).last_stable_value = 500 ∧
      (syncStrip 1 (some 510) false st500).2 = [Eff.setLed 1 false] ∧
      ((syncStrip 1 (some 510) false st500).1 1).last_stable_value = 510 := by
  decide

/-! ## Claim C3: failure escalation -/

/-- Claim C3 (amended): escalation counts tick EXCEPTIONS, not query
timeouts.  Three consecutive tick exceptions cause exactly one connectivity
check and leave the counter at zero, a single exception causes no check, and
any normally completed tick resets the counter; a query timeout is returned
as an absent value (`getFader` yields `None`, `getMute` yields `False`), so a
tick whose queries all time out completes normally and never triggers a
connectivity check. -/
theorem C3_escalation :
    runSync 0 [TickResult.exn, TickResult.exn, TickResult.exn] = (0, 1) ∧
    runSync 0 [TickResult.exn] = (1, 0) ∧
    (∀ e, syncIterate e TickResult.ok = (0, false)) ∧
    getFaderRes none = none ∧ getMute MuteReply.timeout = false := by
  refine ⟨by decide, by decide, fun e => rfl, rfl, rfl⟩

/-- Claim C3, counterexample: a tick whose console queries all time out
(`getFader` returning `None`) completes normally and leaves the strip state
unchanged, so three consecutive all-timeout ticks produce ZERO connectivity
checks, not the exactly one the claim states. -/
theorem C3_escalation_cex :
    getFaderRes none = none ∧
      (tickFaders 1 (fun _ _ => none) (fun _ _ => false) 0 initChannels).1 1 =
        initChannels 1 ∧
      (runSync 0 [TickResult.ok, TickResult.ok, TickResult.ok]).2 = 0 := by
  refine ⟨rfl, by decide, by decide⟩

/-! ## Claim C4: curve codec round trip -/

theorem getFader_pos_of_quadratic (x : ℝ) (h6 : 6 ≤ x) (h1000 : x ≤ 1000) :
    getFader_pos (wingA * x ^ 2 + wingB * x + wingC) = ⌊x⌋ := by
  have h90 : ¬(wingA * x ^ 2 + wingB * x + wingC ≤ -90) := by
    simp only [wingA, wingB, wingC]
    push_neg
    nlinarith [mul_nonneg (by linarith : (0 : ℝ) ≤ x - 6) (by linarith : (0 : ℝ) ≤ 1000 - x)]
  have hd : wingB ^ 2 - 4 * wingA * (wingC - (wingA * x ^ 2 + wingB * x + wingC)) =
      (wingB + 2 * wingA * x) ^ 2 := by ring
  have hpos : 0 ≤ wingB + 2 * wingA * x := by
    simp only [wingA, wingB]
    nlinarith
  have hnd : ¬(wingB ^ 2 - 4 * wingA * (wingC - (wingA * x ^ 2 + wingB * x + wingC)) < 0) := by
    rw [hd]
    exact not_lt.2 (sq_nonneg _)
  unfold getFader_pos
  rw [if_neg h90, if_neg hnd, hd, Real.sqrt_sq hpos]
  have hAne : wingA ≠ 0 := by
    simp only [wingA]
    norm_num
  have hfrac : (-wingB + (wingB + 2 * wingA * x)) / (2 * wingA) = x := by
    rw [div_eq_iff (by simpa using hAne : (2 : ℝ) * wingA ≠ 0)]
    ring
  rw [hfrac]
  have hmin : min ((FADER_MAX : ℤ) : ℝ) x = x := by
    apply min_eq_right
    simp only [FADER_MAX]
    push_cast
    linarith
  have hmax : max ((FADER_MIN : ℤ) : ℝ) x = x := by
    apply max_eq_right
    simp only [FADER_MIN]
    push_cast
    linarith
  rw [hmin, hmax]

/-- Claim C4 (confirmed, exactly): for every integer position in `[6, 1000]`,
the quadratic dB conversion of `setFader` followed by the quadratic-formula
inverse of `getFader` (with its clamp and `int()` truncation) returns the
position exactly, hence within 1 unit.  The discriminant collapses to
`(b + 2·a·pos)²`, making the inverse exact. -/
theorem C4_curve_roundtrip (p : ℤ) (h6 : 6 ≤ p) (h1000 : p ≤ 1000) :
    getFader_pos (setFader_db p) = p ∧ |getFader_pos (setFader_db p) - p| ≤ 1 := by
  have hclamp : max FADER_MIN (min FADER_MAX p) = p := by
    simp only [FADER_MIN, FADER_MAX]
    omega
  have hdb : setFader_db p =
      wingA * ((p : ℤ) : ℝ) ^ 2 + wingB * ((p : ℤ) : ℝ) + wingC := by
    unfold setFader_db
    rw [hclamp, if_neg (by simp only [FADER_SILENT_THRESHOLD]; omega)]
  have hx6 : (6 : ℝ) ≤ ((p : ℤ) : ℝ) := by exact_mod_cast h6
  have hx1000 : ((p : ℤ) : ℝ) ≤ 1000 := by exact_mod_cast h1000
  have key : getFader_pos (setFader_db p) = p := by
    rw [hdb, getFader_pos_of_quadratic _ hx6 hx1000, Int.floor_intCast]
  exact ⟨key, by rw [key]; simp⟩

/-- Claim C4, witness: the round trip is the identity at position 500. -/
theorem C4_curve_roundtrip_witness :
    (6 : ℤ) ≤ 500 ∧ (500 : ℤ) ≤ 1000 ∧
      getFader_pos (setFader_db 500) = 500 ∧
      |getFader_pos (setFader_db 500) - 500| ≤ 1 :=
  ⟨by norm_num, by norm_num,
    (C4_curve_roundtrip 500 (by norm_num) (by norm_num)).1,
    (C4_curve_roundtrip 500 (by norm_num) (by norm_num)).2⟩

/-! ## Claim C5: encoder-turn gain update -/

/-- Claim C5 (amended): each encoder event changes gain by exactly one fixed
`GAIN_STEP = 1.0` dB — up if delta is positive, DOWN otherwise (including
delta 0) — clamped to `[GAIN_MIN, GAIN_MAX]`; the step is never multiplied by
the delta magnitude.  Repeated positive events from 44.5 dB stop at exactly
45.0 dB, and an event with no resolved input source is dropped. -/
theorem C5_encoder_gain (g : ℚ) (d : ℤ) :
    (0 < d → encoderNewGain g d = max GAIN_MIN (min GAIN_MAX (g + GAIN_STEP))) ∧
    (d ≤ 0 → encoderNewGain g d = max GAIN_MIN (min GAIN_MAX (g - GAIN_STEP))) ∧
    encoderNewGain (89/2) 1 = 45 ∧ encoderNewGain 45 1 = 45 ∧
    (∀ page ch sendOk, on_encoder page ch d none sendOk g = (g, none)) := by
  refine ⟨?_, ?_,
    by unfold encoderNewGain GAIN_MIN GAIN_MAX GAIN_STEP; norm_num [min_def, max_def],
    by unfold encoderNewGain GAIN_MIN GAIN_MAX GAIN_STEP; norm_num [min_def, max_def], ?_⟩
  · intro h
    unfold encoderNewGain
    rw [if_pos h]
  · intro h
    unfold encoderNewGain
    rw [if_neg (not_lt.2 h)]
  · intro page ch sendOk
    unfold on_encoder
    cases wingChForEncoder page ch <;> rfl

/-- Claim C5, witness: a positive delta of 2 still adds exactly one step. -/
theorem C5_encoder_gain_witness :
    (0 : ℤ) < 2 ∧
      encoderNewGain 0 2 = max GAIN_MIN (min GAIN_MAX ((0 : ℚ) + GAIN_STEP)) :=
  ⟨by decide, (C5_encoder_gain 0 2).1 (by decide)⟩

/-- Claim C5, counterexample: at gain 0 dB, delta +2 yields 1.0 dB, not the
claimed 2.0 dB (`0 + 2·1.0` clamped); and delta 0 yields −1.0 dB instead of
leaving the gain unchanged. -/
theorem C5_encoder_gain_cex :
    encoderNewGain 0 2 = 1 ∧ claimedGain 0 2 = 2 ∧ (1 : ℚ) ≠ 2 ∧
      encoderNewGain 10 0 = 9 ∧ claimedGain 10 0 = 10 ∧ (9 : ℚ) ≠ 10 := by
  refine ⟨?_, ?_, by norm_num, ?_, ?_, by norm_num⟩ <;>
    simp only [encoderNewGain, claimedGain, GAIN_MIN, GAIN_MAX, GAIN_STEP] <;>
    norm_num [min_def, max_def]

/-! ## Claim C6: LED-ring index -/

theorem pytrunc_nonneg_of_neg_one_lt (q : ℚ) (h : -1 < q) : 0 ≤ pytrunc q := by
  unfold pytrunc
  split_ifs with hq
  · have h1 : (⌊-q⌋ : ℤ) < 1 := by
      rw [Int.floor_lt]
      push_cast
      linarith
    omega
  · exact Int.floor_nonneg.2 (by linarith)

theorem pytrunc_le_of_le (q : ℚ) (n : ℤ) (hn : 0 ≤ n) (h : q ≤ n) : pytrunc q ≤ n := by
  unfold pytrunc
  split_ifs with hq
  · have h1 : 0 ≤ (⌊-q⌋ : ℤ) := Int.floor_nonneg.2 (by linarith)
    omega
  · exact (Int.floor_le_floor h).trans_eq (Int.floor_intCast n)

/-- Claim C6 (amended): the ring position for a gain value is the
towards-zero TRUNCATION `int(gain / GAIN_MAX * 11)` (not `round`), and for
every gain in the clamped range `[-2.5, 45.0]` dB it lies in `0..11`. -/
theorem C6_ring_range (g : ℚ) (h1 : GAIN_MIN ≤ g) (h2 : g ≤ GAIN_MAX) :
    0 ≤ ringValue g ∧ ringValue g ≤ 11 := by
  have hq1 : (-1 : ℚ) < g / GAIN_MAX * 11 := by
    simp only [GAIN_MIN, GAIN_MAX] at *
    rw [div_mul_eq_mul_div, lt_div_iff (by norm_num : (0 : ℚ) < 45)]
    linarith
  have hq2 : g / GAIN_MAX * 11 ≤ ((11 : ℤ) : ℚ) := by
    simp only [GAIN_MAX] at *
    rw [div_mul_eq_mul_div, div_le_iff (by norm_num : (0 : ℚ) < 45)]
    push_cast
    linarith
  exact ⟨pytrunc_nonneg_of_neg_one_lt _ hq1, pytrunc_le_of_le _ 11 (by norm_num) hq2⟩

/-- Claim C6, witness: gain 44 dB is inside the clamped range and its ring
position lies in `0..11` (it is 10). -/
theorem C6_ring_range_witness :
    GAIN_MIN ≤ (44 : ℚ) ∧ (44 : ℚ) ≤ GAIN_MAX ∧
      0 ≤ ringValue 44 ∧ ringValue 44 ≤ 11 :=
  ⟨by unfold GAIN_MIN; norm_num, by unfold GAIN_MAX; norm_num,
    (C6_ring_range 44 (by unfold GAIN_MIN; norm_num) (by unfold GAIN_MAX; norm_num)).1,
    (C6_ring_range 44 (by unfold GAIN_MIN; norm_num) (by unfold GAIN_MAX; norm_num)).2⟩

/-- Claim C6, counterexample: at gain 44 dB the code displays ring position
`int(44/45·11) = 10`, while the claimed formula `round(44/45·11)` gives 11. -/
theorem C6_ring_range_cex :
    ringValue 44 = 10 ∧ specRingIndex 44 = 11 ∧ ringValue 44 ≠ specRingIndex 44 := by
  have hr : ringValue 44 = 10 := by
    unfold ringValue pytrunc GAIN_MAX
    rw [if_neg (by norm_num), Int.floor_eq_iff]
    norm_num
  have hs : specRingIndex 44 = 11 := by
    unfold specRingIndex GAIN_MAX
    rw [round_eq, Int.floor_eq_iff]
    norm_num
  refine ⟨hr, hs, ?_⟩
  rw [hr, hs]
  norm_num

/-! ## Claim C7: console-loss fail-safe -/

/-- Claim C7 (amended): in the 60-second console check, the fail-safe
blackout (zeroing lighting channels 1..512) runs only when the connectivity
check reports loss — but the lighting serial reopen (`dmx.connect()`) is
attempted on EVERY 60-second cycle, also when the check succeeds. -/
theorem C7_failsafe :
    connectionCheckCycle false = dmxBlackout ++ [Eff.dmxConnect] ∧
    connectionCheckCycle true = [Eff.dmxConnect] ∧
    dmxBlackout.length = 512 := by
  refine ⟨rfl, rfl, by simp [dmxBlackout]⟩

/-- Claim C7, counterexample: when the console check succeeds, the cycle
still attempts the serial reopen, contradicting the claim that neither the
blackout nor the reopen occurs on success. -/
theorem C7_failsafe_cex :
    Eff.dmxConnect ∈ connectionCheckCycle true ∧ connectionCheckCycle true ≠ [] := by
  decide

/-! ## Claim C8: lighting shadow read -/

/-- Claim C8 (amended): `getDMX` returns a value — the shadow value if it
lies in `[0, 1000]` and 0 otherwise — for every channel a Python index
accepts, i.e. `-513 ≤ channel < 513` (negative channels wrap); for channel
513 (or any channel outside that range) it raises `IndexError` instead of
returning a value. -/
theorem C8_getDMX_total (shadow : ℤ → ℤ) (channel : ℤ)
    (h1 : -513 ≤ channel) (h2 : channel < 513) :
    (0 ≤ channel → getDMX shadow channel =
      .ok (if 0 ≤ shadow channel ∧ shadow channel ≤ 1000 then shadow channel else 0)) ∧
    (channel < 0 → getDMX shadow channel =
      .ok (if 0 ≤ shadow (channel + 513) ∧ shadow (channel + 513) ≤ 1000 then
        shadow (channel + 513) else 0)) ∧
    (∀ c : ℤ, 513 ≤ c ∨ c < -513 → getDMX shadow c = .error ()) := by
  refine ⟨?_, ?_, ?_⟩
  · intro h0
    unfold getDMX SHADOW_LEN
    rw [if_pos ⟨h0, h2⟩]
    split_ifs <;> rfl
  · intro h0
    unfold getDMX SHADOW_LEN
    rw [if_neg (by omega), if_pos ⟨h1, h0⟩]
    split_ifs <;> rfl
  · intro c hc
    unfold getDMX SHADOW_LEN
    rw [if_neg (by omega), if_neg (by omega)]

/-- Claim C8, witness: channel 7 with shadow value 500 reads back 500, and
channel 600 raises. -/
theorem C8_getDMX_total_witness :
    (0 : ℤ) ≤ 7 ∧ getDMX (fun _ => 500) 7 = .ok 500 ∧
      getDMX (fun _ => 500) 600 = .error () :=
  ⟨by decide,
    by
      have h := (C8_getDMX_total (fun _ => 500) 7 (by decide) (by decide)).1 (by decide)
      simpa using h,
    (C8_getDMX_total (fun _ => 500) 7 (by decide) (by decide)).2.2 600 (by decide)⟩

/-- Claim C8, counterexample: reading channel 513 of the freshly initialised
shadow raises `IndexError` rather than returning a value, and so does a
channel below −513. -/
theorem C8_getDMX_cex :
    getDMX (fun _ => 0) 513 = .error () ∧ getDMX (fun _ => 0) (-514) = .error () := by
  constructor
  · unfold getDMX SHADOW_LEN
    rw [if_neg (by omega), if_neg (by omega)]
  · unfold getDMX SHADOW_LEN
    rw [if_neg (by omega), if_neg (by omega)]

/-! ## Claim C10: mute fallback on unreachable console -/

/-- Claim C10 (confirmed): a mute read that times out, or whose reply is
neither numeric nor one of the accepted truthy strings, yields `False`
(unmuted), not an absent value; consequently a mute-button press while the
console is unreachable computes `new_state = not False = True` and sends
`setMute(..., True)` regardless of the console's actual state. -/
theorem C10_mute_fallback (s : String) (h : muteTruthy.contains (pyUpper s) = false) :
    getMute MuteReply.timeout = false ∧
    getMute (MuteReply.text s) = false ∧
    muteButtonStep MuteReply.timeout = true := by
  refine ⟨rfl, ?_, rfl⟩
  unfold getMute
  exact h

/-- Claim C10, witness: the unparseable reply `"garbage"` reads as unmuted,
and a press with the console unreachable sends mute-on. -/
theorem C10_mute_fallback_witness :
    muteTruthy.contains (pyUpper "garbage") = false ∧
      getMute MuteReply.timeout = false ∧
      getMute (MuteReply.text "garbage") = false ∧
      muteButtonStep MuteReply.timeout = true :=
  ⟨by decide,
    (C10_mute_fallback "garbage" (by decide)).1,
    (C10_mute_fallback "garbage" (by decide)).2.1,
    (C10_mute_fallback "garbage" (by decide)).2.2⟩

/-! ## Claim C9: range invariant `0 ≤ faderValue, lastStableValue ≤ 1000` -/

theorem getFader_pos_range (y : ℝ) : 0 ≤ getFader_pos y ∧ getFader_pos y ≤ 1000 := by
  unfold getFader_pos
  split_ifs with h1 h2
  · exact ⟨le_refl 0, by norm_num⟩
  · exact ⟨le_refl 0, by norm_num⟩
  · have e0 : ((FADER_MIN : ℤ) : ℝ) = 0 := by simp [FADER_MIN]
    have e1 : ((FADER_MAX : ℤ) : ℝ) = 1000 := by norm_num [FADER_MAX]
    rw [e0, e1]
    constructor
    · exact Int.le_floor.2 (by simpa using le_max_left (0 : ℝ) _)
    · have hx : max (0 : ℝ) (min 1000
          ((-wingB + Real.sqrt (wingB ^ 2 - 4 * wingA * (wingC - y))) / (2 * wingA)))
          ≤ 1000 := max_le (by norm_num) (min_le_left _ _)
      exact_mod_cast (Int.floor_le _).trans hx

theorem pitchToVal_range (pb : ℤ) (h1 : -8192 ≤ pb) (h2 : pb ≤ 8191) :
    0 ≤ pitchToVal pb ∧ pitchToVal pb ≤ 1000 := by
  unfold pitchToVal
  have hq0 : (0 : ℚ) ≤ ((pb + 8192 : ℤ) : ℚ) / 16383 * (FADER_MAX : ℚ) := by
    have h0 : (0 : ℚ) ≤ ((pb + 8192 : ℤ) : ℚ) :=
      by exact_mod_cast (by omega : (0 : ℤ) ≤ pb + 8192)
    have hF : (0 : ℚ) ≤ (FADER_MAX : ℚ) := by norm_num [FADER_MAX]
    exact mul_nonneg (div_nonneg h0 (by norm_num)) hF
  have hq1 : ((pb + 8192 : ℤ) : ℚ) / 16383 * (FADER_MAX : ℚ) ≤ ((1000 : ℤ) : ℚ) := by
    have hub : ((pb + 8192 : ℤ) : ℚ) ≤ 16383 :=
      by exact_mod_cast (by omega : (pb + 8192 : ℤ) ≤ 16383)
    rw [show (FADER_MAX : ℚ) = 1000 by norm_num [FADER_MAX],
      div_mul_eq_mul_div, div_le_iff (by norm_num : (0 : ℚ) < 16383)]
    push_cast at hub ⊢
    linarith
  exact ⟨pytrunc_nonneg_of_neg_one_lt _ (by linarith), pytrunc_le_of_le _ 1000 (by norm_num) hq1⟩

theorem syncStrip_range (c : ℕ) (r : Option ℤ) (m : Bool) (st : Channels)
    (hr : ∀ v, r = some v → 0 ≤ v ∧ v ≤ 1000) (h : TableRange st) :
    TableRange (syncStrip c r m st).1 := by
  unfold syncStrip
  split_ifs with ht
  · exact h
  · cases r with
    | none => exact h
    | some wf =>
        intro n
        simp only [updateCh]
        split_ifs with hn
        · rcases hr wf rfl with ⟨hv0, hv1⟩
          exact ⟨hv0, hv1, hv0, hv1⟩
        · exact h n

theorem runStrips_range (f : String → ℕ → Option ℤ) (m : String → ℕ → Bool)
    (ts : List Target) (hf : ∀ t n v, f t n = some v → 0 ≤ v ∧ v ≤ 1000) :
    ∀ st : Channels, TableRange st → TableRange (runStrips f m ts st).1 := by
  induction ts with
  | nil => intro st h; exact h
  | cons t ts ih =>
      intro st h
      exact ih _ (syncStrip_range _ _ _ _ (fun v hv => hf _ _ v hv) h)

theorem refreshStrip_range (c : ℕ) (r : Option ℤ) (st : Channels)
    (hr : ∀ v, r = some v → 0 ≤ v ∧ v ≤ 1000) (h : TableRange st) :
    TableRange (refreshStrip c r st) := by
  unfold refreshStrip
  cases r with
  | none => exact h
  | some v =>
      intro n
      simp only [updateCh]
      split_ifs with hn
      · rcases hr v rfl with ⟨hv0, hv1⟩
        exact ⟨hv0, hv1, hv0, hv1⟩
      · exact h n

theorem refreshList_range (f : String → ℕ → Option ℤ) (ts : List Target)
    (hf : ∀ t n v, f t n = some v → 0 ≤ v ∧ v ≤ 1000) :
    ∀ st : Channels, TableRange st → TableRange (refreshList f ts st) := by
  induction ts with
  | nil => intro st h; exact h
  | cons t ts ih =>
      intro st h
      exact ih _ (refreshStrip_range _ _ _ (fun v hv => hf _ _ v hv) h)

theorem initChannels_range : TableRange initChannels := by
  intro n
  show StripRange strip0
  exact ⟨by decide, by decide, by decide, by decide⟩

/-- Claim C9 (confirmed): `0 ≤ fader_value, last_stable_value ≤ 1000` holds
for the initial channel table and is preserved by every operation that writes
these fields — a reconciliation tick, a fader-move event, the select-button
reset, and a page refresh — because console reads are clamped (as proved here
for `getFader`'s conversion) and pitch-bend decoding maps the 14-bit range
into `[0, 1000]`. -/
theorem C9_range_invariant (op : TableOp) (st : Channels)
    (hwf : opWF op) (hst : TableRange st) :
    TableRange (applyOp op st) ∧ TableRange initChannels ∧
    (∀ y : ℝ, 0 ≤ getFader_pos y ∧ getFader_pos y ≤ 1000) ∧
    (∀ pb : ℤ, -8192 ≤ pb → pb ≤ 8191 → 0 ≤ pitchToVal pb ∧ pitchToVal pb ≤ 1000) := by
  refine ⟨?_, initChannels_range, getFader_pos_range, pitchToVal_range⟩
  cases op with
  | tick p f m l =>
      show TableRange (tickFaders p f m l st).1
      unfold tickFaders
      split_ifs
      · exact runStrips_range f m page0Targets hwf st hst
      · exact runStrips_range f m (pageTargets 8) hwf st hst
      · exact runStrips_range f m (pageTargets 16) hwf st hst
      · exact hst
  | faderMove ch pitch =>
      show TableRange (onFaderState ch (pitchToVal pitch) st)
      have hv := pitchToVal_range pitch hwf.1 hwf.2
      unfold onFaderState
      split_ifs with hd
      · exact hst
      · intro n
        simp only [updateCh]
        split_ifs with hn
        · rcases hst n with ⟨a, b, _, _⟩
          exact ⟨a, b, hv.1, hv.2⟩
        · exact hst n
  | pageReset =>
      intro n
      show StripRange (pageResetState st n)
      unfold pageResetState
      split_ifs
      · exact ⟨le_refl 0, by norm_num, le_refl 0, by norm_num⟩
      · exact hst n
  | refresh p f =>
      show TableRange (refreshFadersState p f st)
      unfold refreshFadersState
      split_ifs
      · exact refreshList_range f page0Targets hwf st hst
      · exact refreshList_range f (pageTargets 8) hwf st hst
      · exact refreshList_range f (pageTargets 16) hwf st hst
      · exact hst

/-- Claim C9, witness: the select-button reset applied to the initial table
keeps the invariant (both trivially well-formed). -/
theorem C9_range_invariant_witness :
    opWF TableOp.pageReset ∧ TableRange initChannels ∧
      TableRange (applyOp TableOp.pageReset initChannels) :=
  ⟨trivial, initChannels_range,
    (C9_range_invariant TableOp.pageReset initChannels trivial initChannels_range).1⟩

end XTouchWing
